import Mathlib

/-!
Shallow embedding of the arbitrage bot in src/bot/src/main.rs.

Machine floats (f64) are modelled by the rationals, which follow the
source's arithmetic formulas exactly; the one claim that is genuinely
about IEEE float behaviour (the non-NaN argument for the sort comparator)
is treated separately with an explicit float domain FP that carries NaN
and the two infinities.  u64 counters are modelled by Nat.  HashMap caches
are modelled by association lists with insert-replacing-the-key semantics,
which is the observable behaviour of HashMap::insert / get.  The async
loops are modelled as step functions: each body of a loop iteration
becomes a function from the state it reads to the state it writes, with
the externally supplied data (clock, received message, ledger answers) as
explicit arguments.
-/

namespace ArbiBot

/-- Configuration record (struct Config, main.rs lines 14-24).  Only the
fields the core logic reads are kept; string-typed endpoint and credential
fields are irrelevant to every claim and carried as plain strings. -/
structure Config where
  base_rpc_url : String
  private_key : String
  contract_address : String
  binance_ws_url : String
  backpack_ws_url : String
  min_profit_threshold : ℚ
  max_gas_price : ℕ
  max_slippage : ℚ
  deriving Repr, DecidableEq

/-- On-chain venue snapshot (struct DEXPrice, main.rs lines 27-34). -/
structure DEXPrice where
  venue : String
  token_pair : String
  price : ℚ
  liquidity : ℚ
  timestamp : ℕ
  deriving Repr, DecidableEq

/-- Off-chain order book snapshot (struct CEXOrderBook, main.rs lines
36-43); bids and asks are (price, quantity) levels. -/
structure CEXOrderBook where
  exchange : String
  symbol : String
  bids : List (ℚ × ℚ)
  asks : List (ℚ × ℚ)
  timestamp : ℕ
  deriving Repr, DecidableEq

/-- Detected opportunity (struct ArbitrageOpportunity, main.rs lines
45-59).  Note the source stores the percentage spread in the field named
spread. -/
structure ArbitrageOpportunity where
  id : String
  strategy : String
  buy_venue : String
  sell_venue : String
  buy_price : ℚ
  sell_price : ℚ
  spread : ℚ
  estimated_profit : ℚ
  confidence : ℚ
  trade_size : ℚ
  gas_estimate : ℕ
  timestamp : ℕ
  deriving Repr, DecidableEq

/-- Metrics record (struct BotMetrics, main.rs lines 73-81). -/
structure BotMetrics where
  total_trades : ℕ
  successful_trades : ℕ
  total_profit : ℚ
  total_volume : ℚ
  avg_execution_time : ℚ
  gas_used : ℕ
  deriving Repr, DecidableEq

/-- BotMetrics::default() (derive(Default), main.rs line 73). -/
def BotMetrics.default : BotMetrics :=
  { total_trades := 0, successful_trades := 0, total_profit := 0,
    total_volume := 0, avg_execution_time := 0, gas_used := 0 }

/-- HashMap::insert keyed by a string: the new entry replaces any entry
with the same key wholesale (main.rs line 236 / 267 / 314). -/
def storeInsert {α : Type} (m : List (String × α)) (k : String) (v : α) :
    List (String × α) :=
  (k, v) :: m.filter fun kv => kv.1 != k

/-- HashMap::get keyed by a string. -/
def storeLookup {α : Type} (m : List (String × α)) (k : String) : Option α :=
  (m.find? fun kv => kv.1 == k).map fun kv => kv.2

/-- One pass of the DEX polling worker's cache update (main.rs lines
233-237): upsert every fetched price under its venue key. -/
def upsertDexPrices (m : List (String × DEXPrice)) (ps : List DEXPrice) :
    List (String × DEXPrice) :=
  ps.foldl (fun acc p => storeInsert acc p.venue p) m

/-- calculate_confidence (main.rs lines 533-542): base 0.5, +0.2 if the
spread percentage exceeds 0.5, +0.1 more if it exceeds 1.0, +0.1 if the
trade size exceeds 10000, +0.1 more if it exceeds 25000, capped at 1. -/
def calculate_confidence (spread_pct trade_size : ℚ) : ℚ :=
  let confidence : ℚ := 1/2
  let confidence := if spread_pct > 1/2 then confidence + 1/5 else confidence
  let confidence := if spread_pct > 1 then confidence + 1/10 else confidence
  let confidence := if trade_size > 10000 then confidence + 1/10 else confidence
  let confidence := if trade_size > 25000 then confidence + 1/10 else confidence
  min confidence 1

/-- Inner body of detect_opportunities for one (DEX venue, CEX exchange)
pair (main.rs lines 340-371): candidate emitted iff the book has a best
bid, the percentage spread exceeds 0.1 and the estimated profit exceeds
the configured minimum. -/
def detect_candidate (config : Config) (timestamp : ℕ)
    (dex_name : String) (dex_price : DEXPrice)
    (cex_name : String) (cex_book : CEXOrderBook) :
    Option ArbitrageOpportunity :=
  match cex_book.bids.head? with
  | none => none
  | some best_bid =>
    let spread := best_bid.1 - dex_price.price
    let spread_pct := spread / dex_price.price * 100
    if spread_pct > 1/10 then
      let trade_size := min (dex_price.liquidity * (1/10)) (best_bid.2 * best_bid.1)
      let estimated_profit := trade_size * spread_pct / 100
      if estimated_profit > config.min_profit_threshold then
        some { id := dex_name ++ "-" ++ cex_name ++ "-" ++ toString timestamp,
               strategy := "dex-to-cex",
               buy_venue := dex_name,
               sell_venue := cex_name,
               buy_price := dex_price.price,
               sell_price := best_bid.1,
               spread := spread_pct,
               estimated_profit := estimated_profit,
               confidence := calculate_confidence spread_pct trade_size,
               trade_size := trade_size,
               gas_estimate := 250000,
               timestamp := timestamp }
      else none
    else none

/-- The nested scan of detect_opportunities (main.rs lines 340-371) over
the snapshots of the two caches. -/
def new_candidates (config : Config)
    (dex_map : List (String × DEXPrice))
    (cex_map : List (String × CEXOrderBook)) (timestamp : ℕ) :
    List ArbitrageOpportunity :=
  dex_map.flatMap fun d =>
    cex_map.filterMap fun c => detect_candidate config timestamp d.1 d.2 c.1 c.2

/-- The descending-profit comparator used by the sort at main.rs line 377:
sort_by with b.estimated_profit compared against a.estimated_profit
orders by descending estimated profit. -/
def profitDesc (a b : ArbitrageOpportunity) : Prop :=
  b.estimated_profit ≤ a.estimated_profit

instance : DecidableRel profitDesc := fun a b =>
  inferInstanceAs (Decidable (b.estimated_profit ≤ a.estimated_profit))

/-- Replacement of the ranked list (main.rs lines 374-378): clear, extend
with the new candidates, sort by descending estimated profit, keep the
top ten.  Vec::sort_by is a stable sort, and the stable sort for a total
comparator is a unique function, so it is embedded as the stable
insertion sort. -/
def update_opportunities (old new_opportunities : List ArbitrageOpportunity) :
    List ArbitrageOpportunity :=
  let opps : List ArbitrageOpportunity := []
  let opps := opps ++ new_opportunities
  let opps := opps.insertionSort profitDesc
  opps.take 10

/-- One full detection cycle (main.rs lines 327-387) as a function from
the cache snapshots and the previous ranked list to the new ranked list. -/
def detection_cycle (config : Config)
    (dex_map : List (String × DEXPrice))
    (cex_map : List (String × CEXOrderBook))
    (timestamp : ℕ) (old : List ArbitrageOpportunity) :
    List ArbitrageOpportunity :=
  update_opportunities old (new_candidates config dex_map cex_map timestamp)

/-- execute_trade (main.rs lines 445-473).  The ledger client is
abstracted: gas_price is the answer of provider.get_gas_price() and
submit_result the outcome of send_transaction / confirmation, both
supplied by the environment.  The cost guard at lines 455-458 errors
before any submission when the queried fee price exceeds the ceiling. -/
def execute_trade (config : Config) (gas_price : ℕ)
    (submit_result : Except String ℕ) : Except String ℕ :=
  if gas_price > config.max_gas_price then Except.error "Gas price too high"
  else submit_result

/-- Metrics update of the Ok branch (main.rs lines 421-427): both counters
up, profit and volume accumulated, incremental mean of the execution
latency over the new successful-trade count, gas estimate accumulated.
The subtraction in the mean is the source's u64 subtraction on the already
incremented counter. -/
def record_success (opp : ArbitrageOpportunity) (execution_time : ℚ)
    (m : BotMetrics) : BotMetrics :=
  let total_trades := m.total_trades + 1
  let successful_trades := m.successful_trades + 1
  { total_trades := total_trades,
    successful_trades := successful_trades,
    total_profit := m.total_profit + opp.estimated_profit,
    total_volume := m.total_volume + opp.trade_size,
    avg_execution_time :=
      (m.avg_execution_time * ((successful_trades - 1 : ℕ) : ℚ) + execution_time) /
        (successful_trades : ℚ),
    gas_used := m.gas_used + opp.gas_estimate }

/-- Metrics update of the Err branch (main.rs lines 429-433): only the
total trade counter moves. -/
def record_failure (m : BotMetrics) : BotMetrics :=
  { m with total_trades := m.total_trades + 1 }

/-- Joint state read and written by one execution-engine cycle. -/
structure ExecState where
  opportunities : List ArbitrageOpportunity
  metrics : BotMetrics
  deriving Repr, DecidableEq

/-- One cycle of execute_arbitrage (main.rs lines 400-441): peek the top
opportunity; if its confidence exceeds 0.8 and its estimated profit
exceeds the configured minimum, attempt the trade, update the metrics
according to the outcome, and remove the attempted identifier from the
list.  The second component reports which opportunity was attempted
(none when the cycle did nothing). -/
def execute_arbitrage_step (config : Config) (gas_price : ℕ)
    (submit_result : Except String ℕ) (execution_time : ℚ)
    (s : ExecState) : ExecState × Option ArbitrageOpportunity :=
  match s.opportunities.head? with
  | none => (s, none)
  | some opp =>
    if opp.confidence > 4/5 ∧ opp.estimated_profit > config.min_profit_threshold then
      let metrics :=
        match execute_trade config gas_price submit_result with
        | Except.ok _ => record_success opp execution_time s.metrics
        | Except.error _ => record_failure s.metrics
      ({ opportunities := s.opportunities.filter fun o => o.id != opp.id,
         metrics := metrics }, some opp)
    else (s, none)

/-! JSON values, the depth-message parsing of the Binance streaming
worker, and the worker's per-message behaviour. -/

/-- JSON value as produced by serde_json::from_str. -/
inductive Json where
  | null
  | bool (b : Bool)
  | num (q : ℚ)
  | str (s : String)
  | arr (xs : List Json)
  | obj (fields : List (String × Json))

/-- serde_json indexing parsed[key]: the value at the key of an object,
Null when absent or not an object. -/
def Json.index (j : Json) (key : String) : Json :=
  match j with
  | .obj fields => ((fields.find? fun kv => kv.1 == key).map fun kv => kv.2).getD .null
  | _ => .null

/-- Value::as_array. -/
def Json.as_array (j : Json) : Option (List Json) :=
  match j with
  | .arr xs => some xs
  | _ => none

/-- Value::as_str. -/
def Json.as_str (j : Json) : Option String :=
  match j with
  | .str s => some s
  | _ => none

/-- One depth level [priceString, quantityString]: both entries must be
JSON strings whose decimal contents parse to numbers (main.rs lines
503-507).  The str::parse of f64 is abstracted by the numeric-parse
function pf supplied to the parser. -/
def parse_level (pf : String → Option ℚ) (j : Json) : Option (ℚ × ℚ) :=
  match j.as_array with
  | none => none
  | some entries =>
    match entries with
    | [price, qty] =>
      match price.as_str with
      | none => none
      | some ps =>
        match qty.as_str with
        | none => none
        | some qs =>
          match pf ps with
          | none => none
          | some p =>
            match pf qs with
            | none => none
            | some q => some (p, q)
    | _ => none

/-- Extraction of one side of the book (main.rs lines 499-519): take the
array under the key (empty when absent), keep the first five entries, and
keep those among them that parse as levels. -/
def extract_levels (pf : String → Option ℚ) (j : Json) (key : String) :
    List (ℚ × ℚ) :=
  (((j.index key).as_array).getD []).take 5 |>.filterMap (parse_level pf)

/-- parse_binance_depth (main.rs lines 496-531).  The text argument is
the result of serde_json::from_str on the raw message: none models a
message that is not valid JSON, in which case the function errors and
nothing else happens. -/
def parse_binance_depth (pf : String → Option ℚ) (timestamp : ℕ)
    (text : Option Json) : Option CEXOrderBook :=
  match text with
  | none => none
  | some parsed =>
    some { exchange := "binance",
           symbol := "ETHUSDC",
           bids := extract_levels pf parsed "b",
           asks := extract_levels pf parsed "a",
           timestamp := timestamp }

/-- Handling of one received text message by monitor_binance_ws (main.rs
lines 264-268): a message that parses is upserted under the exchange key,
a message that does not is dropped and the cache is untouched. -/
def handle_binance_message (pf : String → Option ℚ) (timestamp : ℕ)
    (cex_prices : List (String × CEXOrderBook)) (text : Option Json) :
    List (String × CEXOrderBook) :=
  match parse_binance_depth pf timestamp text with
  | some order_book => storeInsert cex_prices "binance" order_book
  | none => cex_prices

/-- The message loop of monitor_binance_ws over a finite prefix of the
received stream: every message is handled in order; no message stops the
fold. -/
def binance_message_loop (pf : String → Option ℚ) (timestamp : ℕ)
    (cex_prices : List (String × CEXOrderBook)) (msgs : List (Option Json)) :
    List (String × CEXOrderBook) :=
  msgs.foldl (handle_binance_message pf timestamp) cex_prices

/-! Whole-system trace model: the interleaving of worker upserts,
detection cycles and execution cycles, with an instrumentation log of the
identifiers the execution engine has attempted. -/

/-- Shared state of the bot plus the ghost log of attempted identifiers. -/
structure SysState where
  dex_prices : List (String × DEXPrice)
  cex_prices : List (String × CEXOrderBook)
  opportunities : List ArbitrageOpportunity
  metrics : BotMetrics
  attempted : List String
  deriving Repr, DecidableEq

/-- Initial state: empty caches, empty list, default metrics. -/
def SysState.init : SysState :=
  { dex_prices := [], cex_prices := [], opportunities := [],
    metrics := BotMetrics.default, attempted := [] }

/-- One scheduled iteration of one of the concurrent loops, with the data
the environment feeds it. -/
inductive Event where
  | dexTick (ps : List DEXPrice)
  | cexMsg (pf : String → Option ℚ) (timestamp : ℕ) (text : Option Json)
  | backpackTick (order_book : CEXOrderBook)
  | detect (timestamp : ℕ)
  | execute (gas_price : ℕ) (submit_result : Except String ℕ) (execution_time : ℚ)

/-- Transition of the system on one event. -/
def sysStep (config : Config) (s : SysState) : Event → SysState
  | .dexTick ps => { s with dex_prices := upsertDexPrices s.dex_prices ps }
  | .cexMsg pf ts text =>
      { s with cex_prices := handle_binance_message pf ts s.cex_prices text }
  | .backpackTick ob =>
      { s with cex_prices := storeInsert s.cex_prices "backpack" ob }
  | .detect ts =>
      { s with opportunities :=
          detection_cycle config s.dex_prices s.cex_prices ts s.opportunities }
  | .execute gp submit t =>
      let es := execute_arbitrage_step config gp submit t
        { opportunities := s.opportunities, metrics := s.metrics }
      { s with opportunities := es.1.opportunities,
               metrics := es.1.metrics,
               attempted := match es.2 with
                 | some o => o.id :: s.attempted
                 | none => s.attempted }

/-- Run of the system over a finite schedule of events. -/
def sysRun (config : Config) (s : SysState) (es : List Event) : SysState :=
  es.foldl (sysStep config) s

/-! Float domain for the panic-safety claim about the sort comparator.
f64 is modelled as a rational extended with NaN and the two infinities;
zeros are unsigned (the sign of a zero only influences the sign of an
infinite quotient, and the claim below is insensitive to which infinity a
quotient is).  All comparisons involving NaN are false, exactly as in
IEEE 754, and partial_cmp answers None exactly when an operand is NaN. -/
inductive FP where
  | nan
  | pinf
  | ninf
  | fin (q : ℚ)
  deriving Repr, DecidableEq

/-- Strict less-than on f64: false whenever an operand is NaN. -/
def FP.flt : FP → FP → Bool
  | .nan, _ => false
  | _, .nan => false
  | .pinf, _ => false
  | .ninf, .ninf => false
  | .ninf, _ => true
  | .fin _, .pinf => true
  | .fin _, .ninf => false
  | .fin a, .fin b => a < b

/-- Subtraction on f64: NaN propagates, and the difference of two like
infinities is NaN. -/
def FP.fsub : FP → FP → FP
  | .nan, _ => .nan
  | _, .nan => .nan
  | .pinf, .pinf => .nan
  | .pinf, _ => .pinf
  | .ninf, .ninf => .nan
  | .ninf, _ => .ninf
  | .fin _, .pinf => .ninf
  | .fin _, .ninf => .pinf
  | .fin a, .fin b => .fin (a - b)

/-- Multiplication on f64: NaN propagates and zero times an infinity is
NaN. -/
def FP.fmul : FP → FP → FP
  | .nan, _ => .nan
  | _, .nan => .nan
  | .pinf, .pinf => .pinf
  | .pinf, .ninf => .ninf
  | .ninf, .pinf => .ninf
  | .ninf, .ninf => .pinf
  | .pinf, .fin q => if q = 0 then .nan else if 0 < q then .pinf else .ninf
  | .ninf, .fin q => if q = 0 then .nan else if 0 < q then .ninf else .pinf
  | .fin q, .pinf => if q = 0 then .nan else if 0 < q then .pinf else .ninf
  | .fin q, .ninf => if q = 0 then .nan else if 0 < q then .ninf else .pinf
  | .fin a, .fin b => .fin (a * b)

/-- Division on f64: NaN propagates, infinity over infinity is NaN, a
finite numerator over an infinity is zero, zero over zero is NaN, and a
nonzero finite numerator over zero is an infinity. -/
def FP.fdiv : FP → FP → FP
  | .nan, _ => .nan
  | _, .nan => .nan
  | .pinf, .pinf => .nan
  | .pinf, .ninf => .nan
  | .ninf, .pinf => .nan
  | .ninf, .ninf => .nan
  | .pinf, .fin q => if 0 ≤ q then .pinf else .ninf
  | .ninf, .fin q => if 0 ≤ q then .ninf else .pinf
  | .fin _, .pinf => .fin 0
  | .fin _, .ninf => .fin 0
  | .fin a, .fin b =>
      if b = 0 then (if a = 0 then .nan else if 0 < a then .pinf else .ninf)
      else .fin (a / b)

/-- f64::min: when one operand is NaN the other is answered, otherwise
the smaller operand. -/
def FP.fmin : FP → FP → FP
  | .nan, b => b
  | a, .nan => a
  | a, b => if FP.flt b a then b else a

/-- PartialOrd::partial_cmp on f64: None exactly when an operand is NaN. -/
def FP.pcmp : FP → FP → Option Ordering
  | .nan, _ => none
  | _, .nan => none
  | a, b => some (if FP.flt a b then .lt else if FP.flt b a then .gt else .eq)

/-- The candidate filter of detect_opportunities (main.rs lines 343-350)
computed in the float domain: the estimated profit of an admitted
candidate, or none when a filter rejects the pair.  Comparisons with NaN
are false, so a NaN spread percentage or NaN estimated profit never
passes its strict filter. -/
def fp_candidate_profit (min_profit price liquidity bid_price bid_qty : FP) :
    Option FP :=
  let spread := FP.fsub bid_price price
  let spread_pct := FP.fmul (FP.fdiv spread price) (.fin 100)
  if FP.flt (.fin (1/10)) spread_pct then
    let trade_size := FP.fmin (FP.fmul liquidity (.fin (1/10)))
      (FP.fmul bid_qty bid_price)
    let estimated_profit := FP.fdiv (FP.fmul trade_size spread_pct) (.fin 100)
    if FP.flt min_profit estimated_profit then some estimated_profit else none
  else none

/-! Reference fixtures: the configuration hardcoded in main (main.rs lines
548-558) and the concrete scenarios of the specification. -/

/-- The configuration built in main (main.rs lines 548-558). -/
def cfgRef : Config :=
  { base_rpc_url := "https://mainnet.base.org",
    private_key := "your_private_key_here",
    contract_address := "0x1234567890123456789012345678901234567890",
    binance_ws_url := "wss://stream.binance.com:9443/ws/ethusdc@depth",
    backpack_ws_url := "wss://backpack-api.com/ws",
    min_profit_threshold := 50,
    max_gas_price := 50000000000,
    max_slippage := 1 }

/-- Scenario A / B venue snapshot: price 2500, liquidity 50000. -/
def dexA : DEXPrice :=
  { venue := "uni", token_pair := "WETH/USDC", price := 2500,
    liquidity := 50000, timestamp := 100 }

/-- Scenario A book: best bid (2560, 10). -/
def bookA : CEXOrderBook :=
  { exchange := "backpack", symbol := "ETHUSDC", bids := [(2560, 10)],
    asks := [], timestamp := 100 }

/-- Scenario B book: best bid (2502, 10). -/
def bookB : CEXOrderBook :=
  { exchange := "backpack", symbol := "ETHUSDC", bids := [(2502, 10)],
    asks := [], timestamp := 100 }

/-- Scenario D venue snapshot: price 2500, liquidity 300000. -/
def dexD : DEXPrice :=
  { venue := "uni", token_pair := "WETH/USDC", price := 2500,
    liquidity := 300000, timestamp := 100 }

/-- Scenario D book: best bid (2575, 50). -/
def bookD : CEXOrderBook :=
  { exchange := "backpack", symbol := "ETHUSDC", bids := [(2575, 50)],
    asks := [], timestamp := 100 }

/-- The opportunity of Scenario A as the detector builds it: percentage
spread 2.4, trade size 5000, estimated profit 120, confidence exactly
0.8. -/
def oppA : ArbitrageOpportunity :=
  { id := "uni-backpack-100", strategy := "dex-to-cex", buy_venue := "uni",
    sell_venue := "backpack", buy_price := 2500, sell_price := 2560,
    spread := 12/5, estimated_profit := 120, confidence := 4/5,
    trade_size := 5000, gas_estimate := 250000, timestamp := 100 }

/-- The opportunity of Scenario D as the detector builds it: percentage
spread 3, trade size 30000, estimated profit 900, confidence 1. -/
def oppD : ArbitrageOpportunity :=
  { id := "uni-backpack-100", strategy := "dex-to-cex", buy_venue := "uni",
    sell_venue := "backpack", buy_price := 2500, sell_price := 2575,
    spread := 3, estimated_profit := 900, confidence := 1,
    trade_size := 30000, gas_estimate := 250000, timestamp := 100 }

/-! Theorems. -/

/-- C2: for every scanned (venue price, best bid) pair, a candidate is
emitted iff the percentage spread exceeds 0.1 and the estimated profit
exceeds the configured minimum, where spread = bestBid.price -
venuePrice.price, spreadPct = spread / venuePrice.price * 100, tradeSize
= min(venuePrice.liquidity * 0.1, bestBid.quantity * bestBid.price) and
estimatedProfit = tradeSize * spreadPct / 100; an emitted candidate
carries exactly those values. -/
theorem detect_emission_iff (config : Config) (ts : ℕ) (dn cn : String)
    (dp : DEXPrice) (cb : CEXOrderBook) (bb : ℚ × ℚ)
    (hbb : cb.bids.head? = some bb) :
    ((detect_candidate config ts dn dp cn cb).isSome ↔
      ((bb.1 - dp.price) / dp.price * 100 > 1/10 ∧
        min (dp.liquidity * (1/10)) (bb.2 * bb.1) *
          ((bb.1 - dp.price) / dp.price * 100) / 100 >
          config.min_profit_threshold)) ∧
    ∀ o, detect_candidate config ts dn dp cn cb = some o →
      o.spread = (bb.1 - dp.price) / dp.price * 100 ∧
      o.trade_size = min (dp.liquidity * (1/10)) (bb.2 * bb.1) ∧
      o.estimated_profit =
        min (dp.liquidity * (1/10)) (bb.2 * bb.1) *
          ((bb.1 - dp.price) / dp.price * 100) / 100 ∧
      o.buy_price = dp.price ∧ o.sell_price = bb.1 := by
  unfold detect_candidate
  rw [hbb]
  dsimp only
  constructor
  · split_ifs with h1 h2 <;> simp_all
  · intro o ho
    split_ifs at ho with h1 h2 <;> simp_all
    subst ho
    simp

/-- Witness for C2 at Scenario A: price 2500, liquidity 50000, best bid
(2560, 10), minimum profit 50 → a candidate is emitted. -/
theorem detect_emission_iff_witness :
    (detect_candidate cfgRef 100 "uni" dexA "backpack" bookA).isSome :=
  (detect_emission_iff cfgRef 100 "uni" "backpack" dexA bookA (2560, 10) rfl).1.mpr
    (by norm_num [dexA, cfgRef])

/-- C3: the execution engine attempts the top opportunity exactly when
its confidence strictly exceeds 0.8 and its estimated profit strictly
exceeds the configured minimum; at confidence exactly 0.8 the cycle does
nothing. -/
theorem execution_threshold_spec (config : Config) (gp : ℕ)
    (submit : Except String ℕ) (t : ℚ) (s : ExecState)
    (opp : ArbitrageOpportunity) (hhead : s.opportunities.head? = some opp) :
    (((execute_arbitrage_step config gp submit t s).2 = some opp) ↔
      (opp.confidence > 4/5 ∧ opp.estimated_profit > config.min_profit_threshold)) ∧
    (opp.confidence = 4/5 → execute_arbitrage_step config gp submit t s = (s, none)) := by
  unfold execute_arbitrage_step
  rw [hhead]
  dsimp only
  constructor
  · split_ifs with h <;> simp [h]
  · intro hc
    split_ifs with h
    · exact absurd h.1 (by rw [hc]; exact lt_irrefl _)
    · rfl

/-- Witness for C3 at Scenario C: the Scenario A opportunity has
confidence exactly 0.8, so the engine leaves the state untouched and
attempts nothing. -/
theorem execution_threshold_spec_witness :
    execute_arbitrage_step cfgRef 1 (Except.ok 7) 5
      { opportunities := [oppA], metrics := BotMetrics.default } =
      ({ opportunities := [oppA], metrics := BotMetrics.default }, none) :=
  (execution_threshold_spec cfgRef 1 (Except.ok 7) 5
    { opportunities := [oppA], metrics := BotMetrics.default } oppA rfl).2 rfl

/-- C4: the confidence score is non-decreasing in the spread percentage
for a fixed trade size, non-decreasing in the trade size for a fixed
spread percentage, and always lies in the interval from 0 to 1. -/
theorem confidence_monotone_clamped :
    (∀ s t s' : ℚ, s ≤ s' →
      calculate_confidence s t ≤ calculate_confidence s' t) ∧
    (∀ s t t' : ℚ, t ≤ t' →
      calculate_confidence s t ≤ calculate_confidence s t') ∧
    (∀ s t : ℚ, 0 ≤ calculate_confidence s t ∧ calculate_confidence s t ≤ 1) := by
  refine ⟨?_, ?_, ?_⟩
  · intro s t s' h
    unfold calculate_confidence
    dsimp only
    refine min_le_min ?_ le_rfl
    split_ifs <;> linarith
  · intro s t t' h
    unfold calculate_confidence
    dsimp only
    refine min_le_min ?_ le_rfl
    split_ifs <;> linarith
  · intro s t
    unfold calculate_confidence
    dsimp only
    refine ⟨le_min ?_ ?_, min_le_right _ _⟩
    · split_ifs <;> norm_num
    · norm_num

/-- Witness for C4 at Scenario-A-and-D spreads and sizes. -/
theorem confidence_monotone_clamped_witness :
    calculate_confidence 0 0 ≤ calculate_confidence 3 0 ∧
    calculate_confidence 3 0 ≤ calculate_confidence 3 30000 ∧
    0 ≤ calculate_confidence 3 30000 ∧ calculate_confidence 3 30000 ≤ 1 :=
  ⟨confidence_monotone_clamped.1 0 0 3 (by norm_num),
   confidence_monotone_clamped.2.1 3 0 30000 (by norm_num),
   (confidence_monotone_clamped.2.2 3 30000).1,
   (confidence_monotone_clamped.2.2 3 30000).2⟩

instance : IsTotal ArbitrageOpportunity profitDesc :=
  ⟨fun a b => (le_total b.estimated_profit a.estimated_profit).imp id id⟩

instance : IsTrans ArbitrageOpportunity profitDesc :=
  ⟨fun _ _ _ h1 h2 => le_trans h2 h1⟩

/-- C5: after every detection cycle the ranked list has at most ten
entries, is sorted by descending estimated profit, is computed from the
new candidates alone (the previous list is discarded wholesale), and
every entry is one of the cycle's own candidates. -/
theorem ranked_list_invariant (config : Config)
    (dex_map : List (String × DEXPrice))
    (cex_map : List (String × CEXOrderBook)) (ts : ℕ)
    (old : List ArbitrageOpportunity) :
    (detection_cycle config dex_map cex_map ts old).length ≤ 10 ∧
    List.Sorted profitDesc (detection_cycle config dex_map cex_map ts old) ∧
    detection_cycle config dex_map cex_map ts old =
      detection_cycle config dex_map cex_map ts [] ∧
    ∀ o ∈ detection_cycle config dex_map cex_map ts old,
      o ∈ new_candidates config dex_map cex_map ts := by
  refine ⟨List.length_take_le _ _, ?_, rfl, ?_⟩
  · exact List.Pairwise.sublist (List.take_sublist _ _)
      (List.sorted_insertionSort profitDesc _)
  · intro o ho
    have h1 : o ∈ (new_candidates config dex_map cex_map ts).insertionSort profitDesc := by
      simpa [detection_cycle, update_opportunities] using
        List.take_subset _ _ ho
    exact (List.perm_insertionSort profitDesc _).subset h1

/-- C7: when the engine attempts the top opportunity, a confirmed success
increments both counters, accumulates estimated profit, trade size and
gas estimate, and folds the latency sample into the running average by
the incremental-mean formula over the new successful-trade count; a
failure increments only the total trade counter and leaves every other
accumulator unchanged. -/
theorem metrics_update_spec (config : Config) (gp : ℕ)
    (submit : Except String ℕ) (t : ℚ) (s : ExecState)
    (opp : ArbitrageOpportunity) (hhead : s.opportunities.head? = some opp)
    (hguard : opp.confidence > 4/5 ∧
      opp.estimated_profit > config.min_profit_threshold) :
    ((∃ tx, execute_trade config gp submit = Except.ok tx) →
      (execute_arbitrage_step config gp submit t s).1.metrics =
        { total_trades := s.metrics.total_trades + 1,
          successful_trades := s.metrics.successful_trades + 1,
          total_profit := s.metrics.total_profit + opp.estimated_profit,
          total_volume := s.metrics.total_volume + opp.trade_size,
          avg_execution_time :=
            (s.metrics.avg_execution_time *
                (((s.metrics.successful_trades + 1 : ℕ) : ℚ) - 1) + t) /
              ((s.metrics.successful_trades + 1 : ℕ) : ℚ),
          gas_used := s.metrics.gas_used + opp.gas_estimate }) ∧
    ((∃ e, execute_trade config gp submit = Except.error e) →
      (execute_arbitrage_step config gp submit t s).1.metrics =
        { s.metrics with total_trades := s.metrics.total_trades + 1 }) := by
  unfold execute_arbitrage_step
  rw [hhead]
  dsimp only
  rw [if_pos hguard]
  constructor
  · rintro ⟨tx, htx⟩
    rw [htx]
    unfold record_success
    dsimp only
    congr 1
    push_cast
    ring
  · rintro ⟨e, he⟩
    rw [he]
    rfl

/-- Witness for C7: a successful attempt on the Scenario D opportunity
with fee price below the ceiling, latency sample 5, starting from the
default metrics. -/
theorem metrics_update_spec_witness :
    (execute_arbitrage_step cfgRef 1 (Except.ok 7) 5
        { opportunities := [oppD], metrics := BotMetrics.default }).1.metrics =
      { total_trades := 1, successful_trades := 1, total_profit := 900,
        total_volume := 30000, avg_execution_time := 5,
        gas_used := 250000 } := by
  have h := (metrics_update_spec cfgRef 1 (Except.ok 7) 5
      { opportunities := [oppD], metrics := BotMetrics.default } oppD rfl
      (by norm_num [oppD, cfgRef])).1 ⟨7, by norm_num [execute_trade, cfgRef]⟩
  rw [h]
  norm_num [oppD, BotMetrics.default]

/-- C8: two snapshots written in sequence under the same venue key leave
exactly the second one visible to a subsequent read; nothing of the first
snapshot survives.  Stated for the polling worker's one-pass upserts: the
later write of the pass wins unconditionally. -/
theorem store_last_write_wins (m : List (String × DEXPrice))
    (p1 p2 : DEXPrice) :
    storeLookup (upsertDexPrices m [p1, p2]) p2.venue = some p2 ∧
    ∀ (k : String) (q1 q2 : DEXPrice),
      storeLookup (storeInsert (storeInsert m k q1) k q2) k = some q2 := by
  constructor
  · simp [upsertDexPrices, storeInsert, storeLookup, List.find?]
  · intro k q1 q2
    simp [storeInsert, storeLookup, List.find?]

/-- C9: the depth parser takes at most the top five bid levels and five
ask levels from the arrays under the b and a keys, each level a pair of
string decimals coerced to numbers; a message that fails to parse leaves
the cache untouched and does not stop the message loop. -/
theorem binance_parse_spec (pf : String → Option ℚ) (ts : ℕ) :
    (∀ j ob, parse_binance_depth pf ts (some j) = some ob →
      ob.bids.length ≤ 5 ∧ ob.asks.length ≤ 5 ∧
      ob.bids = extract_levels pf j "b" ∧ ob.asks = extract_levels pf j "a") ∧
    (∀ st, handle_binance_message pf ts st none = st) ∧
    (∀ st msgs, binance_message_loop pf ts st (none :: msgs) =
      binance_message_loop pf ts st msgs) := by
  refine ⟨?_, ?_, ?_⟩
  · intro j ob hob
    have hlen : ∀ key, (extract_levels pf j key).length ≤ 5 := by
      intro key
      unfold extract_levels
      calc (((((j.index key).as_array).getD []).take 5).filterMap
              (parse_level pf)).length
          ≤ ((((j.index key).as_array).getD []).take 5).length :=
            List.length_filterMap_le _ _
        _ ≤ 5 := List.length_take_le _ _
    cases hob
    exact ⟨hlen "b", hlen "a", rfl, rfl⟩
  · intro st
    rfl
  · intro st msgs
    rfl

/-- Witness for C9: a one-level depth message parses to a one-level book,
and an unparseable message followed by it leaves exactly the same cache
as the parseable message alone. -/
theorem binance_parse_spec_witness :
    (let pf : String → Option ℚ := fun s =>
      if s = "2560" then some 2560 else if s = "10" then some 10 else none
    let j : Json := Json.obj
      [("b", Json.arr [Json.arr [Json.str "2560", Json.str "10"]]),
       ("a", Json.arr [])]
    ∀ ob, parse_binance_depth pf 100 (some j) = some ob →
      ob.bids.length ≤ 5 ∧ ob.asks.length ≤ 5) ∧
    (∀ st msgs pf, binance_message_loop pf 100 st (none :: msgs) =
      binance_message_loop pf 100 st msgs) :=
  ⟨fun ob hob => ⟨((binance_parse_spec _ 100).1 _ ob hob).1,
      ((binance_parse_spec _ 100).1 _ ob hob).2.1⟩,
   fun st msgs pf => (binance_parse_spec pf 100).2.2 st msgs⟩

/-- C10: an estimated profit admitted by the detection filters is never
NaN, and the partial comparison the ranking sort unwraps is defined on
every pair of non-NaN values, so the sort comparator is total on the
admitted candidates and the unwrap cannot fail. -/
theorem sort_comparator_total (mp p l bp bq est : FP)
    (h : fp_candidate_profit mp p l bp bq = some est) :
    est ≠ FP.nan ∧
    ∀ est2 : FP, est2 ≠ FP.nan →
      (FP.pcmp est est2).isSome ∧ (FP.pcmp est2 est).isSome := by
  have hnn : est ≠ FP.nan := by
    unfold fp_candidate_profit at h
    dsimp only at h
    split_ifs at h with h1 h2
    cases h
    intro hnan
    rw [hnan] at h2
    cases mp <;> simp [FP.flt] at h2
  refine ⟨hnn, ?_⟩
  intro est2 hnn2
  cases est <;> cases est2 <;> simp_all [FP.pcmp]

/-- Witness for C10 at Scenario A in the float domain: the admitted
profit is the finite value 120, and the comparator answers on it. -/
theorem sort_comparator_total_witness :
    (FP.fin 120 ≠ FP.nan ∧
      ∀ est2 : FP, est2 ≠ FP.nan →
        (FP.pcmp (FP.fin 120) est2).isSome ∧
        (FP.pcmp est2 (FP.fin 120)).isSome) :=
  sort_comparator_total (FP.fin 50) (FP.fin 2500) (FP.fin 50000)
    (FP.fin 2560) (FP.fin 10) (FP.fin 120)
    (by norm_num [fp_candidate_profit, FP.fsub, FP.fdiv, FP.fmul, FP.fmin, FP.flt])

/-- C1 counterexample: Scenario D opportunity at the top, queried fee
price 60 gwei above the 50 gwei ceiling, a submission that would succeed.
The guard rejection surfaces as the generic error branch of
execute_arbitrage (main.rs lines 429-433): the total trade counter moves
from 0 to 1 and the opportunity is removed from the ranked list, so the
claimed soft failure (no counter change, opportunity preserved) is false
here. -/
theorem gas_guard_rejection_counterexample :
    execute_trade cfgRef 60000000000 (Except.ok 7) =
      Except.error "Gas price too high" ∧
    (execute_arbitrage_step cfgRef 60000000000 (Except.ok 7) 5
        { opportunities := [oppD],
          metrics := BotMetrics.default }).1.metrics.total_trades = 1 ∧
    BotMetrics.default.total_trades = 0 ∧
    (execute_arbitrage_step cfgRef 60000000000 (Except.ok 7) 5
        { opportunities := [oppD],
          metrics := BotMetrics.default }).1.opportunities = [] := by
  refine ⟨rfl, ?_, rfl, ?_⟩ <;>
    simp [execute_arbitrage_step, execute_trade, record_failure,
      oppD, cfgRef, BotMetrics.default] <;> norm_num

/-- C1 amended: a queried fee price above the ceiling makes
execute_trade error before submission, and the engine then treats the
attempt as a failed trade: the total trade counter is incremented (the
other metrics untouched) and the attempted identifier is removed from
the ranked list rather than preserved; a fee price at or below the
ceiling proceeds to submission. -/
theorem gas_guard_rejection_spec (config : Config) (gp : ℕ)
    (submit : Except String ℕ) (t : ℚ) (s : ExecState)
    (opp : ArbitrageOpportunity) (hhead : s.opportunities.head? = some opp)
    (hguard : opp.confidence > 4/5 ∧
      opp.estimated_profit > config.min_profit_threshold) :
    (gp > config.max_gas_price →
      execute_trade config gp submit = Except.error "Gas price too high" ∧
      (execute_arbitrage_step config gp submit t s).1.metrics =
        { s.metrics with total_trades := s.metrics.total_trades + 1 } ∧
      ∀ o ∈ (execute_arbitrage_step config gp submit t s).1.opportunities,
        o.id ≠ opp.id) ∧
    (¬ gp > config.max_gas_price →
      execute_trade config gp submit = submit) := by
  constructor
  · intro hgp
    have htrade : execute_trade config gp submit =
        Except.error "Gas price too high" := by
      unfold execute_trade
      rw [if_pos hgp]
    refine ⟨htrade, ?_, ?_⟩
    · unfold execute_arbitrage_step
      rw [hhead]
      dsimp only
      rw [if_pos hguard, htrade]
      rfl
    · intro o ho
      unfold execute_arbitrage_step at ho
      rw [hhead] at ho
      dsimp only at ho
      rw [if_pos hguard] at ho
      dsimp only at ho
      simpa using (List.mem_filter.mp ho).2
  · intro hgp
    unfold execute_trade
    rw [if_neg hgp]

/-- Witness for C1 amended at the counterexample input: fee price 60
gwei against the 50 gwei ceiling. -/
theorem gas_guard_rejection_spec_witness :
    execute_trade cfgRef 60000000000 (Except.ok 7) =
      Except.error "Gas price too high" ∧
    (execute_arbitrage_step cfgRef 60000000000 (Except.ok 7) 5
        { opportunities := [oppD], metrics := BotMetrics.default }).1.metrics =
      { BotMetrics.default with
        total_trades := BotMetrics.default.total_trades + 1 } ∧
    ∀ o ∈ (execute_arbitrage_step cfgRef 60000000000 (Except.ok 7) 5
        { opportunities := [oppD],
          metrics := BotMetrics.default }).1.opportunities,
      o.id ≠ oppD.id :=
  (gas_guard_rejection_spec cfgRef 60000000000 (Except.ok 7) 5
      { opportunities := [oppD], metrics := BotMetrics.default } oppD rfl
      (by norm_num [oppD, cfgRef])).1 (by norm_num [cfgRef])

/-- The event schedule of the C6 counterexample: populate both caches,
detect at epoch second 100, execute the top opportunity successfully,
then run the next detection cycle still within epoch second 100. -/
def evsC6 : List Event :=
  [Event.dexTick [dexD], Event.backpackTick bookD, Event.detect 100,
   Event.execute 1 (Except.ok 7) 5, Event.detect 100]

unseal Rat.sub Rat.add Rat.mul Rat.inv in
/-- C6 counterexample: after the execution engine attempts identifier
uni-backpack-100 (it is removed at that moment), the next detection cycle
inside the same epoch second re-derives the same venue pair and the very
same identifier is back in the ranked list, so an attempted identifier
can appear again in a later state. -/
theorem attempted_id_reappears :
    ((sysRun cfgRef SysState.init (evsC6.take 4)).opportunities = [] ∧
      "uni-backpack-100" ∈ (sysRun cfgRef SysState.init (evsC6.take 4)).attempted) ∧
    "uni-backpack-100" ∈ (sysRun cfgRef SysState.init evsC6).attempted ∧
    ∃ o ∈ (sysRun cfgRef SysState.init evsC6).opportunities,
      o.id = "uni-backpack-100" := by
  decide

/-- C6 amended: at the moment of an attempt (successful or failed) the
attempted identifier is removed from the ranked list, so it is absent
immediately after the execution cycle; it can reappear only when a later
detection cycle within the same detection second re-derives the same
venue pair under the same identifier. -/
theorem attempted_removed_on_attempt (config : Config) (gp : ℕ)
    (submit : Except String ℕ) (t : ℚ) (s : ExecState)
    (opp : ArbitrageOpportunity)
    (h : (execute_arbitrage_step config gp submit t s).2 = some opp) :
    ∀ o ∈ (execute_arbitrage_step config gp submit t s).1.opportunities,
      o.id ≠ opp.id := by
  unfold execute_arbitrage_step at h ⊢
  revert h
  cases hh : s.opportunities.head? with
  | none =>
    intro h
    dsimp only at h
    cases h
  | some top =>
    intro h
    dsimp only at h ⊢
    split_ifs at h ⊢ with hg
    cases h
    intro o ho
    simpa using (List.mem_filter.mp ho).2

unseal Rat.sub Rat.add Rat.mul Rat.inv in
/-- Witness for C6 amended: the successful attempt on the Scenario D
opportunity leaves no entry with its identifier in the list. -/
theorem attempted_removed_on_attempt_witness :
    ((execute_arbitrage_step cfgRef 1 (Except.ok 7) 5
        { opportunities := [oppD],
          metrics := BotMetrics.default }).1.opportunities.all
      fun o => o.id != oppD.id) = true := by
  have h := attempted_removed_on_attempt cfgRef 1 (Except.ok 7) 5
    { opportunities := [oppD], metrics := BotMetrics.default } oppD (by decide)
  simp only [List.all_eq_true, bne_iff_ne]
  exact fun o ho => h o ho

end ArbiBot
